import Mathlib

/-!
Verification of the calibration-and-scoring engine of the bme680 MQTT daemon.

The source is a single Python file (`bme680-mqtt-daemon.py`).  The numeric
core — burn-in baseline averaging, the air-quality score, unit conversions,
field selection in `publish_mqtt`, and the wall-clock publish gate — is
embedded below over `ℚ` (Python floats are modelled as exact rationals).
Python raises `ZeroDivisionError` on float division by zero and `NameError`
on an unbound name; both are modelled with `Except`.
-/

namespace BME680

/-- `SEALEVEL_MIN = -999`, the sentinel meaning "elevation not configured"
(source line 36). -/
def SEALEVEL_MIN : ℚ := -999

/-- Python 3 `round(x)` on a float: round half to even (bankers rounding),
returning an integer. -/
def pyRound (q : ℚ) : ℤ :=
  let f := ⌊q⌋
  let r := q - (f : ℚ)
  if r < 1/2 then f
  else if 1/2 < r then f + 1
  else if f % 2 = 0 then f else f + 1

/-- Python 3 `round(x, ndigits)`: round half to even at `10 ^ ndigits`. -/
def pyRoundTo (ndigits : ℕ) (q : ℚ) : ℚ :=
  (pyRound (q * 10 ^ ndigits) : ℚ) / 10 ^ ndigits

/-- One raw reading of `sensor.data`: the fields the engine consumes, plus
the `heat_stable` flag.  A failed `sensor.get_sensor_data()` is modelled the
same way as an unstable heater: the tick is skipped, nothing else observes
the sample. -/
structure SensorData where
  temperature : ℚ
  humidity : ℚ
  pressure : ℚ
  gas_resistance : ℚ
  heat_stable : Bool
deriving DecidableEq

/-- The run-time options the numeric core reads (source lines 155-195);
connection settings are external collaborators and are not modelled. -/
structure Options where
  toffset : ℚ
  hoffset : ℚ
  poffset : ℚ
  elevation : ℚ
deriving DecidableEq

/-- The effect of one burn-in loop iteration on `burn_in_data` (source lines
257-261): when the sample is ready and the heater is stable the gas
resistance is appended; the list is never trimmed inside the loop. -/
def burnInStep (w : List ℚ) (d : SensorData) : List ℚ :=
  if d.heat_stable then w ++ [d.gas_resistance] else w

/-- The `burn_in_data` list produced by feeding a sequence of samples to the
burn-in loop, starting from the empty list (source line 247). -/
def burnInRun (samples : List SensorData) : List ℚ :=
  samples.foldl burnInStep []

/-- Python `l[-50:]`: the suffix of the last `n` elements (all of `l` when
it is shorter). -/
def lastN (n : ℕ) (l : List ℚ) : List ℚ :=
  l.drop (l.length - n)

/-- `gas_baseline = sum(burn_in_data[-50:]) / 50.0` (source line 308): the
sum of the last 50 collected values divided by the constant `50.0`,
whatever the actual number of collected values. -/
def gas_baseline_calc (burn_in_data : List ℚ) : ℚ :=
  (lastN 50 burn_in_data).sum / 50

/-- Modelled from the spec: the arithmetic mean of the retained window
("as their arithmetic mean; if fewer than 50 were accepted the estimator
must still average over whatever was collected").  Not present in the
source, which always divides by `50.0`. -/
def specMean (l : List ℚ) : ℚ :=
  l.sum / (l.length : ℚ)

/-- The publish gate of both loops (source lines 262-263 and 349-350):
`my_time = int(round(curr_time)); my_time % 60 == 0`. -/
def publishGate (curr_time : ℚ) : Bool :=
  pyRound curr_time % 60 == 0

/-- `hum_baseline = 40.0` (source line 311). -/
def hum_baseline : ℚ := 40

/-- `hum_weighting = 0.25` (source line 315). -/
def hum_weighting : ℚ := 1/4

/-- The humidity sub-score (source lines 330-337). -/
def hum_score (hum : ℚ) : ℚ :=
  let hum_offset := hum - hum_baseline
  if 0 < hum_offset then
    (100 - hum_baseline - hum_offset) / (100 - hum_baseline) * (hum_weighting * 100)
  else
    (hum_baseline + hum_offset) / hum_baseline * (hum_weighting * 100)

/-- Error raised by the scoring loop when Python evaluates `gas /
gas_baseline` with `gas_baseline == 0.0`. -/
inductive ScoreError
  | divisionByZero
deriving DecidableEq

/-- The gas sub-score (source lines 327 and 340-344).  On the
`gas_offset > 0` branch Python divides by `gas_baseline` and raises
`ZeroDivisionError` when it is zero. -/
def gas_score (gas gas_baseline : ℚ) : Except ScoreError ℚ :=
  let gas_offset := gas_baseline - gas
  if 0 < gas_offset then
    if gas_baseline = 0 then .error .divisionByZero
    else .ok ((gas / gas_baseline) * (100 - hum_weighting * 100))
  else
    .ok (100 - hum_weighting * 100)

/-- `air_quality_score = hum_score + gas_score` (source line 347). -/
def air_quality_score (gas gas_baseline hum : ℚ) : Except ScoreError ℚ :=
  (gas_score gas gas_baseline).map (fun g => hum_score hum + g)

/-- Error raised inside `publish_mqtt`: line 82 reads
`press_S = press_A + (elevation/9.2)` but no variable `elevation` is bound
in the function (or globally) — only `options.elevation` exists — so Python
raises `NameError` whenever that branch is taken. -/
inductive PubError
  | nameError
deriving DecidableEq

/-- The sea-level pressure computed by `publish_mqtt` (source lines 78-84):
when `options.elevation > SEALEVEL_MIN` the branch evaluates the unbound
name `elevation` and raises `NameError`; otherwise `press_S = press_A`. -/
def press_S_calc (press_A elevation_opt : ℚ) : Except PubError ℚ :=
  if SEALEVEL_MIN < elevation_opt then .error .nameError
  else .ok press_A

/-- Modelled from the spec: `pressure_sealevel(pressure_absolute, elevation)
= pressure_absolute + elevation/9.2` when elevation is configured.  The
source line 82 clearly intends this (the comment above it states the formula)
but references the unbound name `elevation` instead of `options.elevation`. -/
def press_sealevel_spec (press_A elevation : ℚ) : ℚ :=
  press_A + elevation / (9.2 : ℚ)

/-- A value published by `publish_mqtt`: a rounded number, or a string
(the `burn_in` flag and the timestamp in JSON mode). -/
inductive Field
  | num (q : ℚ)
  | str (s : String)
deriving DecidableEq

/-- Flat output mode of `publish_mqtt` (source lines 94-109): the list of
`(topic suffix, value)` pairs published, in order.  The Python
`str(...)` conversion is left implicit; values are the rounded numbers.
The whole call fails with `NameError` when elevation is configured, because
`press_S` is computed (line 82) before anything is published. -/
def publishFlat (d : SensorData) (o : Options) (air_quality_score : ℚ) :
    Except PubError (List (String × ℚ)) := do
  let hum := d.humidity + o.hoffset
  let temp_F := (9 : ℚ)/5 * d.temperature + 32 + o.toffset
  let press_A := d.pressure + o.poffset
  let press_S ← press_S_calc press_A o.elevation
  return [("bme680-temperature", pyRoundTo 1 temp_F),
          ("bme680-humidity", pyRoundTo 1 hum),
          ("bme680-pressure", pyRoundTo 2 press_A)]
    ++ (if SEALEVEL_MIN < o.elevation then
          [("bme680-sealevel-pressure", pyRoundTo 2 press_S)] else [])
    ++ (if air_quality_score ≠ 0 then
          [("bme680-air-quality", pyRoundTo 2 air_quality_score)] else [])

/-- Structured (JSON) output mode of `publish_mqtt` (source lines 111-127):
the key/value pairs of the `data` dict, in insertion order.  `timestamp`
comes from the wall clock and is passed in as an uninterpreted string. -/
def jsonData (d : SensorData) (o : Options) (air_quality_score gas_baseline : ℚ)
    (timestamp : String) : Except PubError (List (String × Field)) := do
  let hum := d.humidity + o.hoffset
  let temp_F := (9 : ℚ)/5 * d.temperature + 32 + o.toffset
  let press_A := d.pressure + o.poffset
  let press_S ← press_S_calc press_A o.elevation
  return [("gas", Field.num (pyRound d.gas_resistance : ℚ)),
          ("humidity", Field.num (pyRoundTo 1 hum)),
          ("temperature", Field.num (pyRoundTo 1 temp_F)),
          ("pressure", Field.num (pyRoundTo 2 press_A))]
    ++ (if SEALEVEL_MIN < o.elevation then
          [("sealevel", Field.num (pyRoundTo 2 press_S))] else [])
    ++ (if air_quality_score ≠ 0 then
          [("air_quality", Field.num (pyRoundTo 2 air_quality_score))] else [])
    ++ [("burn_in", Field.str (if gas_baseline ≠ 0 then "True" else "False"))]
    ++ (if gas_baseline ≠ 0 then
          [("gas_baseline", Field.num (pyRound gas_baseline : ℚ))] else [])
    ++ [("timestamp", Field.str timestamp)]

/-- A heater-stable sample carrying gas resistance `g`; the other fields are
irrelevant to the burn-in window. -/
def stableSample (g : ℚ) : SensorData :=
  ⟨0, 0, 0, g, true⟩

/-! Helper lemmas. -/

/-- `round` of an integral value is that value. -/
theorem pyRound_natCast (n : ℕ) : pyRound (n : ℚ) = (n : ℤ) := by
  simp [pyRound]

/-- At integer-valued times the gate reduces to `n % 60 == 0` on `ℕ`. -/
theorem publishGate_natCast (n : ℕ) : publishGate (n : ℚ) = (n % 60 == 0) := by
  simp [publishGate, pyRound_natCast]
  omega

/-- The floor of `59.6`. -/
theorem floor_of_596 : ⌊(298/5 : ℚ)⌋ = 59 := by
  rw [Int.floor_eq_iff]
  norm_num

/-- Feeding heater-stable samples accumulates exactly their gas values. -/
theorem burnInRun_foldl (gs : List ℚ) (acc : List ℚ) :
    (gs.map stableSample).foldl burnInStep acc = acc ++ gs := by
  induction gs generalizing acc with
  | nil => simp
  | cons g rest ih => simp [burnInStep, stableSample, ih]

/-! Claims. -/

/-- Claim C1: after a warm-up that accepted the three samples
`[100, 200, 300]` the source computes `sum([100, 200, 300][-50:]) / 50.0 =
12.0`, while the arithmetic mean of the retained window is `200.0`; the
divisor is the fixed `50.0`, not the number of samples collected, so the
claimed mean property fails for windows shorter than 50. -/
theorem c1_short_window_divided_by_fixed_fifty :
    gas_baseline_calc [100, 200, 300] = 12 ∧
    specMean [100, 200, 300] = 200 ∧
    gas_baseline_calc [100, 200, 300] ≠ specMean [100, 200, 300] := by
  refine ⟨?_, ?_, ?_⟩ <;> norm_num [gas_baseline_calc, specMean, lastN]

/-- Claim C2 (counterexample): the gate is `int(round(curr_time)) % 60 == 0`,
not `floor(now) % 60 == 0`.  At `now = 59.6` the code publishes (`round`
gives 60) although `floor(59.6) % 60 = 59 ≠ 0`; and at `now = 0` the gate
also fires, so a stream over seconds 0..125 does not publish only at 60 and
120. -/
theorem c2_gate_off_floor_boundary :
    publishGate (298/5 : ℚ) = true ∧
    ⌊(298/5 : ℚ)⌋ % 60 ≠ 0 ∧
    publishGate (0 : ℚ) = true := by
  refine ⟨?_, ?_, ?_⟩
  · rw [publishGate, pyRound, floor_of_596]
    norm_num
  · rw [floor_of_596]
    decide
  · simp [publishGate, pyRound]

/-- Claim C2 (amended): a record is published exactly when
`int(round(now)) % 60 == 0` (Python round-half-even); at integer-valued
times this is `n % 60 == 0`, and for a tick stream at integer seconds 0
through 125 the gate fires exactly at seconds 0, 60 and 120. -/
theorem c2_gate_round_aligned :
    (∀ n : ℕ, publishGate (n : ℚ) = (n % 60 == 0)) ∧
    (List.range 126).filter (fun s : ℕ => publishGate (s : ℚ)) = [0, 60, 120] := by
  refine ⟨publishGate_natCast, ?_⟩
  rw [List.filter_congr (fun s _ => publishGate_natCast s)]
  decide

/-- Claim C3: with elevation configured (`92 > SEALEVEL_MIN`) the sea-level
pressure branch of `publish_mqtt` raises `NameError` (line 82 references
the unbound name `elevation`), instead of computing
`press_A + elevation/9.2` as the spec states; the spec-modelled formula
would give `1000 + 92/9.2 = 1010`. -/
theorem c3_sealevel_branch_unbound_name :
    press_S_calc 1000 92 = Except.error PubError.nameError ∧
    press_sealevel_spec 1000 92 - 1000 = 10 := by
  constructor
  · norm_num [press_S_calc, SEALEVEL_MIN]
  · norm_num [press_sealevel_spec]

/-- Claim C4: for every nonnegative gas resistance, every gas baseline and
every calibrated humidity, the air-quality score is the humidity sub-score
plus the gas sub-score, with the piecewise formulas of the claim
(`hum_offset = hum - 40`, sub-score `(100-40-hum_offset)/(100-40)*25` when
positive else `(40+hum_offset)/40*25`; `gas_offset = gas_baseline - gas`,
sub-score `gas/gas_baseline*75` when positive else flat `75`). -/
theorem c4_air_quality_score_formula (gas gb hum : ℚ) (hgas : 0 ≤ gas) :
    air_quality_score gas gb hum = Except.ok
      ((if 0 < hum - 40 then (100 - 40 - (hum - 40)) / (100 - 40) * 25
        else (40 + (hum - 40)) / 40 * 25)
       + (if 0 < gb - gas then gas / gb * 75 else 75)) := by
  by_cases hg : 0 < gb - gas
  · have hb : ¬ gb = 0 := by
      intro h2
      rw [h2] at hg
      linarith
    by_cases hh : 0 < hum - 40 <;>
      simp [air_quality_score, gas_score, hum_score, hum_baseline, hum_weighting,
        hg, hb, hh, Except.map] <;> norm_num
  · by_cases hh : 0 < hum - 40 <;>
      simp [air_quality_score, gas_score, hum_score, hum_baseline, hum_weighting,
        hg, hh, Except.map] <;> norm_num

/-- Witness for C4: at `gas = 120`, `gas_baseline = 120`, `hum = 40` both
offsets are zero and the formula evaluates to `25 + 75 = 100`. -/
theorem c4_air_quality_score_formula_witness :
    (0 : ℚ) ≤ 120 ∧ air_quality_score 120 120 40 = Except.ok 100 :=
  ⟨by norm_num, (c4_air_quality_score_formula 120 120 40 (by norm_num)).trans (by norm_num)⟩

/-- Claim C5: when the warm-up window ends empty the source computes
`sum([][-50:]) / 50.0 = 0.0` and proceeds to the scoring loop with that
degenerate baseline — the very next stable sample gets a numeric score
(flat gas branch) — instead of surfacing an `InsufficientBurnInData`
error. -/
theorem c5_empty_window_degenerate_baseline :
    gas_baseline_calc [] = 0 ∧
    air_quality_score 100 (gas_baseline_calc []) 40 = Except.ok 100 := by
  have h0 : gas_baseline_calc [] = 0 := by norm_num [gas_baseline_calc, lastN]
  refine ⟨h0, ?_⟩
  rw [h0]
  norm_num [air_quality_score, gas_score, hum_score, hum_baseline, hum_weighting, Except.map]

/-- Claim C6 (counterexample): the scorer invoked with `gas_baseline = 0`,
`gas = 100`, `hum = 40` returns the numeric score `100.0` (flat gas branch,
no division is reached), refuting "fails with a DivisionUndefined kind; it
never produces a numeric score". -/
theorem c6_zero_baseline_numeric_score :
    air_quality_score 100 0 40 = Except.ok 100 := by
  norm_num [air_quality_score, gas_score, hum_score, hum_baseline, hum_weighting, Except.map]

/-- Claim C6 (amended): invoked with `gas_baseline = 0` and a nonnegative
gas resistance, the scorer never fails — `gas_offset = -gas` is not
positive, the flat branch is taken, and a numeric score is produced. -/
theorem c6_zero_baseline_no_failure (gas hum : ℚ) (h : 0 ≤ gas) :
    ∃ q, air_quality_score gas 0 hum = Except.ok q := by
  have hg : ¬ gas < 0 := not_lt.mpr h
  refine ⟨hum_score hum + (100 - hum_weighting * 100), ?_⟩
  simp [air_quality_score, gas_score, hg, Except.map]

/-- Witness for the amended C6 at `gas = 100`, `hum = 40`. -/
theorem c6_zero_baseline_no_failure_witness :
    (0 : ℚ) ≤ 100 ∧ ∃ q, air_quality_score 100 0 40 = Except.ok q :=
  ⟨by norm_num, c6_zero_baseline_no_failure 100 40 (by norm_num)⟩

/-- Claim C7 (counterexample): after 51 accepted samples `burn_in_data`
holds 51 entries — the loop appends without evicting, so the retained
window exceeds 50 entries during warm-up. -/
theorem c7_window_exceeds_fifty :
    (burnInRun (List.replicate 51 (stableSample 100))).length = 51 ∧
    ¬ (burnInRun (List.replicate 51 (stableSample 100))).length ≤ 50 := by
  have h : burnInRun (List.replicate 51 (stableSample 100)) = List.replicate 51 (100 : ℚ) := by
    have h2 := burnInRun_foldl (List.replicate 51 (100 : ℚ)) []
    simpa [burnInRun, List.map_replicate] using h2
  rw [h]
  simp

/-- Claim C7 (amended): the warm-up list retains every accepted sample in
arrival order with no eviction; only the baseline computation at the end of
warm-up restricts to the last-50 slice, whose length is `min 50 n` and
which is a suffix of the full list (the most recent samples in arrival
order). -/
theorem c7_unbounded_window_last_fifty (gs : List ℚ) :
    burnInRun (gs.map stableSample) = gs ∧
    (lastN 50 gs).length = min 50 gs.length ∧
    gs.take (gs.length - 50) ++ lastN 50 gs = gs := by
  refine ⟨?_, ?_, ?_⟩
  · simpa [burnInRun] using burnInRun_foldl gs []
  · simp [lastN]
    omega
  · simp [lastN]

/-- Claim C8: a raw sample whose heater-stable flag is false leaves
`burn_in_data` unchanged: the sample is silently dropped and contributes
nothing to the baseline. -/
theorem c8_unstable_sample_window_unchanged (w : List ℚ) (d : SensorData)
    (h : d.heat_stable = false) :
    burnInStep w d = w := by
  simp [burnInStep, h]

/-- Witness for C8 on a concrete unstable sample and window `[1, 2]`. -/
theorem c8_unstable_sample_window_unchanged_witness :
    (SensorData.mk 20 30 1000 5000 false).heat_stable = false ∧
    burnInStep [1, 2] (SensorData.mk 20 30 1000 5000 false) = [1, 2] :=
  ⟨rfl, c8_unstable_sample_window_unchanged [1, 2] (SensorData.mk 20 30 1000 5000 false) rfl⟩

/-- Claim C9: with `gas_baseline = 0` and a nonnegative gas resistance,
`gas_offset = -gas` is never strictly positive, so the dividing branch is
unreachable and the gas sub-score is the flat `100 - 25 = 75`; the scoring
computation is total, no division by zero occurs. -/
theorem c9_zero_baseline_flat_branch (gas hum : ℚ) (h : 0 ≤ gas) :
    air_quality_score gas 0 hum = Except.ok (hum_score hum + (100 - hum_weighting * 100)) := by
  have hg : ¬ gas < 0 := not_lt.mpr h
  simp [air_quality_score, gas_score, hg, Except.map]

/-- Witness for C9 at `gas = 7`, `hum = 50`. -/
theorem c9_zero_baseline_flat_branch_witness :
    (0 : ℚ) ≤ 7 ∧
    air_quality_score 7 0 50 = Except.ok (hum_score 50 + (100 - hum_weighting * 100)) :=
  ⟨by norm_num, c9_zero_baseline_flat_branch 7 50 (by norm_num)⟩

/-- Claim C10: when elevation is unconfigured (so `publish_mqtt` does not
abort on the unbound-name branch), both output modes include the
air-quality field exactly when the passed score is nonzero; and a score of
exactly 0 is legitimately reachable after warm-up
(`air_quality_score 0 100 0 = 0`), in which case the field is omitted just
as during warm-up. -/
theorem c10_air_quality_field_iff_nonzero (d : SensorData) (o : Options)
    (score gb : ℚ) (ts : String) (h : ¬ SEALEVEL_MIN < o.elevation) :
    (∃ pubs, publishFlat d o score = Except.ok pubs ∧
      (("bme680-air-quality" ∈ pubs.map Prod.fst) ↔ score ≠ 0)) ∧
    (∃ jd, jsonData d o score gb ts = Except.ok jd ∧
      (("air_quality" ∈ jd.map Prod.fst) ↔ score ≠ 0)) ∧
    air_quality_score 0 100 0 = Except.ok 0 := by
  have hflat : publishFlat d o score =
      Except.ok ([("bme680-temperature", pyRoundTo 1 ((9:ℚ)/5 * d.temperature + 32 + o.toffset)),
                  ("bme680-humidity", pyRoundTo 1 (d.humidity + o.hoffset)),
                  ("bme680-pressure", pyRoundTo 2 (d.pressure + o.poffset))]
        ++ (if score ≠ 0 then [("bme680-air-quality", pyRoundTo 2 score)] else [])) := by
    simp [publishFlat, press_S_calc, h, Bind.bind, Except.bind, Pure.pure, Except.pure]
  have hjson : jsonData d o score gb ts =
      Except.ok ([("gas", Field.num (pyRound d.gas_resistance : ℚ)),
                  ("humidity", Field.num (pyRoundTo 1 (d.humidity + o.hoffset))),
                  ("temperature", Field.num (pyRoundTo 1 ((9:ℚ)/5 * d.temperature + 32 + o.toffset))),
                  ("pressure", Field.num (pyRoundTo 2 (d.pressure + o.poffset)))]
        ++ (if score ≠ 0 then [("air_quality", Field.num (pyRoundTo 2 score))] else [])
        ++ [("burn_in", Field.str (if gb ≠ 0 then "True" else "False"))]
        ++ (if gb ≠ 0 then [("gas_baseline", Field.num (pyRound gb : ℚ))] else [])
        ++ [("timestamp", Field.str ts)]) := by
    simp [jsonData, press_S_calc, h, Bind.bind, Except.bind, Pure.pure, Except.pure]
  refine ⟨⟨_, hflat, ?_⟩, ⟨_, hjson, ?_⟩, ?_⟩
  · by_cases hs : score = 0 <;> simp [hs]
  · by_cases hs : score = 0 <;> by_cases hb : gb = 0 <;> simp [hs, hb]
  · norm_num [air_quality_score, gas_score, hum_score, hum_baseline, hum_weighting, Except.map]

/-- Witness for C10: a concrete stable sample, unconfigured elevation,
score 0 and baseline 0. -/
theorem c10_air_quality_field_iff_nonzero_witness :
    ¬ SEALEVEL_MIN < (Options.mk 0 0 0 (-999)).elevation ∧
    ((∃ pubs, publishFlat (SensorData.mk 20 30 1000 5000 true) (Options.mk 0 0 0 (-999)) 0 =
        Except.ok pubs ∧
      (("bme680-air-quality" ∈ pubs.map Prod.fst) ↔ (0 : ℚ) ≠ 0)) ∧
     (∃ jd, jsonData (SensorData.mk 20 30 1000 5000 true) (Options.mk 0 0 0 (-999)) 0 0 "t" =
        Except.ok jd ∧
      (("air_quality" ∈ jd.map Prod.fst) ↔ (0 : ℚ) ≠ 0)) ∧
     air_quality_score 0 100 0 = Except.ok 0) :=
  ⟨by norm_num [SEALEVEL_MIN],
   c10_air_quality_field_iff_nonzero (SensorData.mk 20 30 1000 5000 true)
     (Options.mk 0 0 0 (-999)) 0 0 "t" (by norm_num [SEALEVEL_MIN])⟩

end BME680
